import Mathlib

/-!
Verification development for the Invoice Insights repository.

The definitions below are shallow embeddings of the TypeScript source:

* `parseChargeValue` embeds the numeric-coercion utility of
  `src/ai/flows/classify-invoice-charges.ts` (lines 109-119), with JavaScript
  runtime values modelled by `JSValue` and JavaScript's `parseFloat` (over the
  character class `[0-9.-]` that survives the cleaning regex) modelled by
  `parseFloatQ`.
* `compareCharges` embeds the rate-comparison helper of the invoice data
  table component (`src/unnamed/part_002`, lines 23-55).
* `addInvoiceData` embeds the result-store updater of the invoice data
  context (`src/unnamed/part_006`, lines 17-28).
* `classifyInvoiceChargesFlow` / `extractInvoiceDataFlow` embed the Genkit
  flows of `src/ai/flows/classify-invoice-charges.ts` and
  `src/ai/flows/extract-invoice-data.ts`; the nondeterministic
  document-understanding call is abstracted as its structured output
  (`Option` of a raw-output record whose fields are arbitrary `JSValue`s),
  and a flow that can throw is embedded as a function into `Except`.
* `handleUploadLoop` / `handleUpload` embed the per-file batch loop of the
  invoice uploader (`src/unnamed/part_003`, lines 56-145), with each file's
  processing outcome abstracted as an `Except` value.

Monetary amounts are modelled by `ℚ` (the source manipulates JavaScript
numbers; none of the verified properties depend on floating-point rounding,
only on comparisons and exact sums of the given values).
-/

namespace InvoiceInsights

/-- A JavaScript number: either NaN or a finite value (modelled as a
rational; the verified properties do not involve infinities). -/
inductive JSNum where
  | nan : JSNum
  | val : ℚ → JSNum
deriving DecidableEq, Repr

/-- A JavaScript runtime value as far as `parseChargeValue` can observe it:
`typeof value === 'number'`, `typeof value === 'string'`, or anything else
(`undefined`, `null`, a boolean, an object), which the function treats
uniformly. -/
inductive JSValue where
  | num : JSNum → JSValue
  | str : String → JSValue
  | undef : JSValue
  | null : JSValue
  | boolean : Bool → JSValue
  | object : JSValue
deriving DecidableEq, Repr

/-- The character class `[0-9.-]` of the cleaning regex
`value.replace(/[^0-9.-]+/g, "")`: digits, the decimal point, and the minus
sign (anywhere in the string). -/
def isKeptChar (c : Char) : Bool :=
  c.isDigit || c = '.' || c = '-'

/-- The cleaning step of `parseChargeValue`: every character outside
`[0-9.-]` is removed. -/
def cleanChars (s : String) : List Char :=
  s.data.filter isKeptChar

/-- Numeric value of a digit string (most significant digit first);
the empty list denotes 0, matching `parseFloat`'s treatment of an absent
integer or fraction part. -/
def digitsToNat (ds : List Char) : Nat :=
  ds.foldl (fun acc c => acc * 10 + (c.toNat - '0'.toNat)) 0

/-- JavaScript `parseFloat` on an unsigned input drawn from `[0-9.]`-shaped
prefixes: the longest leading run of digits, optionally followed by a decimal
point and further digits; `none` (NaN) when no digit is consumed. -/
def parseDecimalHead (cs : List Char) : Option ℚ :=
  let intPart := cs.takeWhile Char.isDigit
  let rest := cs.dropWhile Char.isDigit
  match rest with
  | '.' :: r2 =>
    let fracPart := r2.takeWhile Char.isDigit
    if intPart.isEmpty && fracPart.isEmpty then none
    else
      some (mkRat (digitsToNat intPart * 10 ^ fracPart.length + digitsToNat fracPart)
        (10 ^ fracPart.length))
  | _ => if intPart.isEmpty then none else some (mkRat (digitsToNat intPart) 1)

/-- JavaScript `parseFloat` restricted to strings over `[0-9.-]` (the only
strings `parseChargeValue` feeds it): an optional leading minus sign followed
by an unsigned decimal head; `none` models NaN. -/
def parseFloatQ (cs : List Char) : Option ℚ :=
  match cs with
  | '-' :: rest => (parseDecimalHead rest).map Neg.neg
  | _ => parseDecimalHead cs

/-- Embedding of `parseChargeValue` (classify-invoice-charges.ts, lines
109-119): a number is returned as-is unless NaN (then 0); a string is
cleaned to `[0-9.-]` and fed to `parseFloat`, with NaN collapsing to 0;
every other runtime type yields 0. The source body has no `throw` and every
branch returns, so the embedding is a total function. -/
def parseChargeValue : JSValue → ℚ
  | JSValue.num JSNum.nan => 0
  | JSValue.num (JSNum.val q) => q
  | JSValue.str s => (parseFloatQ (cleanChars s)).getD 0
  | _ => 0

/-- Shipment mode of an invoice, `src/types/invoice.ts`:
`'air' | 'ocean' | 'unknown'`. -/
inductive ShipmentType where
  | air : ShipmentType
  | ocean : ShipmentType
  | unknown : ShipmentType
deriving DecidableEq, Repr

/-- Comparison verdict of `compareCharges`, `src/types/invoice.ts`:
`'matched' | 'mismatched' | 'no_quotation_data' | 'invoice_type_unknown' |
'not_comparable_charges'`. -/
inductive ComparisonStatus where
  | matched : ComparisonStatus
  | mismatched : ComparisonStatus
  | no_quotation_data : ComparisonStatus
  | invoice_type_unknown : ComparisonStatus
  | not_comparable_charges : ComparisonStatus
deriving DecidableEq, Repr

/-- The `QuotationRates` interface of `src/types/invoice.ts` (final
variant): per mode and charge type an optional numeric ceiling and an
optional description. -/
structure QuotationRates where
  airServiceChargeRate : Option ℚ
  airServiceChargeDescription : Option String
  airLoadingChargeRate : Option ℚ
  airLoadingChargeDescription : Option String
  airTransportationChargeRate : Option ℚ
  airTransportationChargeDescription : Option String
  oceanServiceChargeRate : Option ℚ
  oceanServiceChargeDescription : Option String
  oceanLoadingChargeRate : Option ℚ
  oceanLoadingChargeDescription : Option String
  oceanTransportationChargeRate : Option ℚ
  oceanTransportationChargeDescription : Option String
deriving DecidableEq, Repr

/-- The `ExtractedData` interface of `src/types/invoice.ts` (final variant,
the one embedded in `src/components/quotation-uploader.tsx` lines 175-210):
identification fields, the two aggregate buckets, the three optional
actual-by-type amounts, optional shipment type, provenance and an optional
comparison verdict. -/
structure ExtractedData where
  invoiceDate : String
  invoiceNumber : String
  hawbNumber : String
  termsOfInvoice : String
  jobNumber : String
  cargomenOwnCharges : ℚ
  reimbursementCharges : ℚ
  filename : Option String
  serviceChargesActual : Option ℚ
  loadingChargesActual : Option ℚ
  transportationChargesActual : Option ℚ
  shipmentType : Option ShipmentType
  comparisonStatus : Option ComparisonStatus
deriving DecidableEq, Repr

/-- One flag computation of `compareCharges`: the source initialises
`serviceChargeMatch`/`loadingChargeMatch` to `true` and flips the flag to
`false` exactly when the mode's rate is defined and the actual exceeds it,
so the flag equals "the rate is undefined, or the actual is ≤ the rate". -/
def chargeMatch (actual : ℚ) (rate : Option ℚ) : Bool :=
  match rate with
  | some r => decide (actual ≤ r)
  | none => true

/-- Embedding of `compareCharges` (`src/unnamed/part_002`, lines 23-55).
The early returns and the mutable match flags of the source are translated
branch by branch; in the `air`/`ocean` branch the both-rates-undefined check
returns `not_comparable_charges` (the flags are untouched in that case), and
when the shipment type is absent (`undefined` in TS) neither branch runs, so
both flags remain `true` and the function returns `matched`. -/
def compareCharges (invoice : ExtractedData) (rates : Option QuotationRates) :
    ComparisonStatus :=
  match rates with
  | none => ComparisonStatus.no_quotation_data
  | some r =>
    let invoiceServiceActual := invoice.serviceChargesActual.getD 0
    let invoiceLoadingActual := invoice.loadingChargesActual.getD 0
    match invoice.shipmentType with
    | some ShipmentType.unknown => ComparisonStatus.invoice_type_unknown
    | some ShipmentType.air =>
      if r.airServiceChargeRate = none ∧ r.airLoadingChargeRate = none then
        ComparisonStatus.not_comparable_charges
      else if chargeMatch invoiceServiceActual r.airServiceChargeRate
          && chargeMatch invoiceLoadingActual r.airLoadingChargeRate then
        ComparisonStatus.matched
      else ComparisonStatus.mismatched
    | some ShipmentType.ocean =>
      if r.oceanServiceChargeRate = none ∧ r.oceanLoadingChargeRate = none then
        ComparisonStatus.not_comparable_charges
      else if chargeMatch invoiceServiceActual r.oceanServiceChargeRate
          && chargeMatch invoiceLoadingActual r.oceanLoadingChargeRate then
        ComparisonStatus.matched
      else ComparisonStatus.mismatched
    | none =>
      if chargeMatch invoiceServiceActual none
          && chargeMatch invoiceLoadingActual none then
        ComparisonStatus.matched
      else ComparisonStatus.mismatched

/-- The deduplication key of the result store: two records collide when both
`invoiceNumber` and `filename` agree (`src/unnamed/part_006`, lines 22-24). -/
def sameKey (a b : ExtractedData) : Bool :=
  a.invoiceNumber == b.invoiceNumber && a.filename == b.filename

/-- Embedding of `addInvoiceData` (`src/unnamed/part_006`, lines 17-28): the
incoming batch is filtered against the previously stored list (an incoming
record is dropped when some stored record shares its
invoiceNumber+filename key) and the survivors are appended. -/
def addInvoiceData (prevData newData : List ExtractedData) :
    List ExtractedData :=
  prevData ++ newData.filter (fun newItem =>
    !(prevData.any (fun existingItem => sameKey existingItem newItem)))

/-- Raw structured output of the charge-classification prompt
(`src/ai/flows/classify-invoice-charges.ts`, final four-field schema).
Each field is an arbitrary JavaScript value: the flow defends against the
model emitting strings or garbage by running every field through
`parseChargeValue`. -/
structure RawClassifierOutput where
  serviceCharges : JSValue
  loadingUnloadingCharges : JSValue
  transportationCharges : JSValue
  reimbursementCharges : JSValue
deriving DecidableEq, Repr

/-- The coerced `ClassifyInvoiceChargesOutput` of
`src/ai/flows/classify-invoice-charges.ts`. -/
structure ClassifyInvoiceChargesOutput where
  serviceCharges : ℚ
  loadingUnloadingCharges : ℚ
  transportationCharges : ℚ
  reimbursementCharges : ℚ
deriving DecidableEq, Repr

/-- Embedding of `classifyInvoiceChargesFlow`
(`src/ai/flows/classify-invoice-charges.ts`, lines 130-153). The prompt call
is abstracted as its structured output (`none` when the model returned no
output). With no output the flow returns the all-zero breakdown instead of
throwing; otherwise every field is coerced by `parseChargeValue`. -/
def classifyInvoiceChargesFlow (output : Option RawClassifierOutput) :
    ClassifyInvoiceChargesOutput :=
  match output with
  | none =>
    { serviceCharges := 0, loadingUnloadingCharges := 0
      transportationCharges := 0, reimbursementCharges := 0 }
  | some o =>
    { serviceCharges := parseChargeValue o.serviceCharges
      loadingUnloadingCharges := parseChargeValue o.loadingUnloadingCharges
      transportationCharges := parseChargeValue o.transportationCharges
      reimbursementCharges := parseChargeValue o.reimbursementCharges }

/-- Structured output of `extractBasicDetailsPrompt`
(`src/ai/flows/extract-invoice-data.ts`, lines 51-79). -/
structure BasicDetails where
  invoiceNumber : String
  invoiceDate : String
  hawbNumber : String
  termsOfInvoice : String
  jobNumber : String
deriving DecidableEq, Repr

/-- The combined `ExtractInvoiceDataOutput` of
`src/ai/flows/extract-invoice-data.ts` (four-field charge variant,
`filename` added later by the wrapper and therefore omitted here as in the
flow body). -/
structure ExtractInvoiceDataOutput where
  invoiceNumber : String
  invoiceDate : String
  hawbNumber : String
  termsOfInvoice : String
  jobNumber : String
  serviceCharges : ℚ
  loadingUnloadingCharges : ℚ
  transportationCharges : ℚ
  reimbursementCharges : ℚ
deriving DecidableEq, Repr

/-- Embedding of `extractInvoiceDataFlow`
(`src/ai/flows/extract-invoice-data.ts`, lines 87-119). Both
document-understanding calls are abstracted as their structured outputs.
When the basic-details prompt returns no output the flow throws
(`Except.error` with the source's message); otherwise it runs the charge
classifier — which never throws — and merges the two results. -/
def extractInvoiceDataFlow (basicDetails : Option BasicDetails)
    (classifierOutput : Option RawClassifierOutput) :
    Except String ExtractInvoiceDataOutput :=
  match basicDetails with
  | none =>
    Except.error
      "Failed to extract basic details from the first page of the invoice document."
  | some bd =>
    let charges := classifyInvoiceChargesFlow classifierOutput
    Except.ok
      { invoiceNumber := bd.invoiceNumber, invoiceDate := bd.invoiceDate
        hawbNumber := bd.hawbNumber, termsOfInvoice := bd.termsOfInvoice
        jobNumber := bd.jobNumber
        serviceCharges := charges.serviceCharges
        loadingUnloadingCharges := charges.loadingUnloadingCharges
        transportationCharges := charges.transportationCharges
        reimbursementCharges := charges.reimbursementCharges }

/-- Raw structured output of the charge-classification stage in the final
pipeline variant: the three actual-by-type amounts plus the two aggregate
buckets, each an arbitrary JavaScript value before coercion. -/
structure RawActualClassifierOutput where
  serviceChargesActual : JSValue
  loadingChargesActual : JSValue
  transportationChargesActual : JSValue
  cargomenOwnCharges : JSValue
  reimbursementCharges : JSValue
deriving DecidableEq, Repr

/-- Coerced charge breakdown of the final pipeline variant. -/
structure ActualChargeBreakdown where
  serviceChargesActual : ℚ
  loadingChargesActual : ℚ
  transportationChargesActual : ℚ
  cargomenOwnCharges : ℚ
  reimbursementCharges : ℚ
deriving DecidableEq, Repr

/-- Modelled from the spec: the `classify-invoice-charges.ts` variant whose
output carries `serviceChargesActual`, `loadingChargesActual`,
`transportationChargesActual`, `cargomenOwnCharges` and
`reimbursementCharges` — the variant consumed by the final orchestrator
`extractInvoiceDataFlow` of `src/unnamed/part_007` (lines 113-132) — is not
present in the repository snapshot; only its caller is. Per spec §4.2
(steps as for the present variants, plus step 4): with no structured output
the flow returns the all-zero breakdown; otherwise every field is coerced
with `parseChargeValue`, and `cargomenOwnCharges` is recomputed as the sum
of the three post-coercion actual-by-type fields, overriding the model's
self-reported aggregate whenever that sum is positive; the model's figure
is used only as a fallback. -/
def classifyInvoiceChargesActualFlow (output : Option RawActualClassifierOutput) :
    ActualChargeBreakdown :=
  match output with
  | none =>
    { serviceChargesActual := 0, loadingChargesActual := 0
      transportationChargesActual := 0
      cargomenOwnCharges := 0, reimbursementCharges := 0 }
  | some o =>
    let svc := parseChargeValue o.serviceChargesActual
    let load := parseChargeValue o.loadingChargesActual
    let trans := parseChargeValue o.transportationChargesActual
    let modelOwn := parseChargeValue o.cargomenOwnCharges
    let itemizedSum := svc + load + trans
    { serviceChargesActual := svc, loadingChargesActual := load
      transportationChargesActual := trans
      cargomenOwnCharges := if 0 < itemizedSum then itemizedSum else modelOwn
      reimbursementCharges := parseChargeValue o.reimbursementCharges }

/-- Structured output of `extractBasicDetailsAndShipmentTypePrompt`
(`src/unnamed/part_007`, lines 59-93). -/
structure BasicDetailsWithType where
  invoiceNumber : String
  invoiceDate : String
  hawbNumber : String
  termsOfInvoice : String
  jobNumber : String
  shipmentType : ShipmentType
deriving DecidableEq, Repr

/-- Embedding of the final `extractInvoiceDataFlow`
(`src/unnamed/part_007`, lines 95-138): when the basic-details prompt
returns no output the flow throws; otherwise it runs the charge classifier
and copies its (already reconciled) fields into the combined record.
`filename` and `comparisonStatus` are absent from the flow's output (added
later by the wrapper / the UI), hence `none` here. -/
def extractInvoiceDataFlowFinal (basic : Option BasicDetailsWithType)
    (classifierOutput : Option RawActualClassifierOutput) :
    Except String ExtractedData :=
  match basic with
  | none =>
    Except.error
      "Failed to extract basic details and shipment type from the invoice."
  | some bd =>
    let charges := classifyInvoiceChargesActualFlow classifierOutput
    Except.ok
      { invoiceNumber := bd.invoiceNumber, invoiceDate := bd.invoiceDate
        hawbNumber := bd.hawbNumber, termsOfInvoice := bd.termsOfInvoice
        jobNumber := bd.jobNumber, shipmentType := some bd.shipmentType
        serviceChargesActual := some charges.serviceChargesActual
        loadingChargesActual := some charges.loadingChargesActual
        transportationChargesActual := some charges.transportationChargesActual
        cargomenOwnCharges := charges.cargomenOwnCharges
        reimbursementCharges := charges.reimbursementCharges
        filename := none, comparisonStatus := none }

/-- Accumulated state of the batch loop of `handleUpload`
(`src/unnamed/part_003`): the records pushed to `allExtractedData`, the
filenames for which an error was caught and reported, and the
`processedFiles` counter (incremented in the `finally` block for every
file, succeeded or failed). -/
structure BatchResult where
  succeededData : List ExtractedData
  failedFiles : List String
  processedFiles : Nat
deriving DecidableEq, Repr

/-- One iteration of the `for (const file of files)` loop of `handleUpload`
(`src/unnamed/part_003`, lines 62-118): a file is abstracted as its name
together with the outcome of reading and extracting it. On success the
record is appended to the accumulator; on failure the exception is caught,
the failure is recorded against the filename, and the loop continues. -/
def processFile (acc : BatchResult) (file : String × Except String ExtractedData) :
    BatchResult :=
  match file.2 with
  | Except.ok d =>
    { acc with succeededData := acc.succeededData ++ [d]
               processedFiles := acc.processedFiles + 1 }
  | Except.error _ =>
    { acc with failedFiles := acc.failedFiles ++ [file.1]
               processedFiles := acc.processedFiles + 1 }

/-- The whole batch loop of `handleUpload`: every file of the batch is
processed in order, failures included — the catch block never rethrows and
never breaks the loop. -/
def handleUploadLoop (files : List (String × Except String ExtractedData)) :
    BatchResult :=
  files.foldl processFile { succeededData := [], failedFiles := [], processedFiles := 0 }

/-- The store update performed after the loop (`src/unnamed/part_003`,
lines 121-123): the successfully extracted records are added to the result
store when there are any. -/
def handleUpload (prev : List ExtractedData)
    (files : List (String × Except String ExtractedData)) : List ExtractedData :=
  let result := handleUploadLoop files
  if result.succeededData.isEmpty then prev
  else addInvoiceData prev result.succeededData

/-- The coercion reference definition as the specification words it: a
number input is returned unchanged unless NaN (then 0); a string input has
every character that is not a digit, a decimal point, or a LEADING minus
sign stripped, and the remainder is parsed as a decimal (0 when
unparseable); any other type yields 0. This follows the spec's words, to be
compared with `parseChargeValue`, which is translated from the source. -/
def coerceClaimRef : JSValue → ℚ
  | JSValue.num JSNum.nan => 0
  | JSValue.num (JSNum.val q) => q
  | JSValue.str s =>
    let cleaned :=
      match s.data with
      | '-' :: rest => '-' :: rest.filter (fun c => c.isDigit || c = '.')
      | l => l.filter (fun c => c.isDigit || c = '.')
    (parseFloatQ cleaned).getD 0
  | _ => 0

/-- The amended coercion reference: as `coerceClaimRef`, except that every
minus sign — not only a leading one — survives the stripping step (this is
the character class `[0-9.-]` the source actually uses), and the cleaned
string is parsed as its longest leading decimal prefix. -/
def coerceAmendedRef : JSValue → ℚ
  | JSValue.num JSNum.nan => 0
  | JSValue.num (JSNum.val q) => q
  | JSValue.str s =>
    (parseFloatQ (s.data.filter (fun c => c.isDigit || c = '.' || c = '-'))).getD 0
  | _ => 0

/-- Inputs containing no minus sign in any observable position: NaN,
non-negative numbers, strings without the character, and every non-number
non-string value. -/
def minusFreeInput : JSValue → Prop
  | JSValue.num JSNum.nan => True
  | JSValue.num (JSNum.val q) => 0 ≤ q
  | JSValue.str s => '-' ∉ s.data
  | _ => True

/-- An unsigned decimal head is never negative: both branches of
`parseDecimalHead` build `mkRat` of a natural numerator and denominator. -/
lemma parseDecimalHead_nonneg (cs : List Char) (q : ℚ)
    (h : parseDecimalHead cs = some q) : 0 ≤ q := by
  unfold parseDecimalHead at h
  dsimp only at h
  split at h
  · split at h
    · exact absurd h (by simp)
    · rw [Option.some_inj] at h
      subst h
      rw [Rat.mkRat_eq_div]
      positivity
  · split at h
    · exact absurd h (by simp)
    · rw [Option.some_inj] at h
      subst h
      rw [Rat.mkRat_eq_div]
      positivity

/-- On a character list that does not start with a minus sign, `parseFloatQ`
is the unsigned parse. -/
lemma parseFloatQ_no_minus (cs : List Char) (h : '-' ∉ cs) :
    parseFloatQ cs = parseDecimalHead cs := by
  unfold parseFloatQ
  split
  · simp_all
  · rfl

/-- Claim C2, corrected part. The claim asserts that `parseChargeValue`
always returns a value ≥ 0; it does not: a negative number input is
returned unchanged (`return isNaN(value) ? 0 : value`), so the input `-5`
is a counterexample. -/
theorem parseChargeValue_negative_counterexample :
    parseChargeValue (JSValue.num (JSNum.val (-5))) = -5
    ∧ ¬ (0 ≤ parseChargeValue (JSValue.num (JSNum.val (-5)))) := by
  refine ⟨rfl, ?_⟩
  rw [show parseChargeValue (JSValue.num (JSNum.val (-5))) = -5 from rfl]
  norm_num

/-- Claim C2, amended. `parseChargeValue` is a total function (the source
body has no `throw`; each branch returns a number, which the embedding
reflects by being a Lean function into `ℚ`), and its result is non-negative
for every input that carries no minus sign: NaN, any non-negative number,
any string not containing the character `-`, and every value of another
runtime type. -/
theorem parseChargeValue_nonneg (v : JSValue) (h : minusFreeInput v) :
    0 ≤ parseChargeValue v := by
  cases v with
  | num n =>
    cases n with
    | nan => exact le_refl 0
    | val q => exact h
  | str s =>
    show 0 ≤ (parseFloatQ (cleanChars s)).getD 0
    have hmem : '-' ∉ cleanChars s := fun hc => h (List.mem_of_mem_filter hc)
    rw [parseFloatQ_no_minus _ hmem]
    cases hq : parseDecimalHead (cleanChars s) with
    | none => exact le_refl 0
    | some q => exact parseDecimalHead_nonneg _ _ hq
  | undef => exact le_refl 0
  | null => exact le_refl 0
  | boolean b => exact le_refl 0
  | object => exact le_refl 0

/-- Witness for the amended claim C2 at the concrete input `"₹1,234.50"`. -/
theorem parseChargeValue_nonneg_witness :
    minusFreeInput (JSValue.str "₹1,234.50")
    ∧ 0 ≤ parseChargeValue (JSValue.str "₹1,234.50") := by
  have hm : minusFreeInput (JSValue.str "₹1,234.50") := by
    show '-' ∉ "₹1,234.50".data
    decide
  exact ⟨hm, parseChargeValue_nonneg _ hm⟩

/-- Claim C7, corrected part. The claim's reference definition keeps only a
leading minus sign; the source's regex `[^0-9.-]` keeps every minus sign,
so the two disagree on `"1-2"`: the code cleans it to `"1-2"` and
`parseFloat` reads the prefix `1`, while the reference strips the interior
minus, cleans to `"12"` and reads `12`. -/
theorem parseChargeValue_ne_coerceClaimRef :
    parseChargeValue (JSValue.str "1-2") = 1
    ∧ coerceClaimRef (JSValue.str "1-2") = 12
    ∧ parseChargeValue (JSValue.str "1-2") ≠ coerceClaimRef (JSValue.str "1-2") := by
  refine ⟨rfl, rfl, ?_⟩
  intro h
  rw [show parseChargeValue (JSValue.str "1-2") = 1 from rfl,
    show coerceClaimRef (JSValue.str "1-2") = 12 from rfl] at h
  norm_num at h

/-- Claim C7, amended. `parseChargeValue` equals the amended reference
definition, in which every minus sign (not only a leading one) survives
stripping and the cleaned string is parsed as its longest leading decimal
prefix; the claim's concrete examples hold:
`coerce("₹1,234.50") = 1234.50`, `coerce(undefined) = 0`,
`coerce(NaN) = 0`. -/
theorem parseChargeValue_eq_coerceAmendedRef :
    (∀ v, parseChargeValue v = coerceAmendedRef v)
    ∧ parseChargeValue (JSValue.str "₹1,234.50") = 1234.5
    ∧ parseChargeValue JSValue.undef = 0
    ∧ parseChargeValue (JSValue.num JSNum.nan) = 0 := by
  refine ⟨fun v => ?_, ?_, rfl, rfl⟩
  · cases v with
    | num n => cases n <;> rfl
    | str s => rfl
    | undef => rfl
    | null => rfl
    | boolean b => rfl
    | object => rfl
  · have h : parseChargeValue (JSValue.str "₹1,234.50") = mkRat 123450 100 := by rfl
    rw [h, Rat.mkRat_eq_div]
    norm_num

/-- The mode-specific service ceiling of a schedule. -/
def serviceCeiling : ShipmentType → QuotationRates → Option ℚ
  | ShipmentType.air, r => r.airServiceChargeRate
  | ShipmentType.ocean, r => r.oceanServiceChargeRate
  | ShipmentType.unknown, _ => none

/-- The mode-specific loading ceiling of a schedule. -/
def loadingCeiling : ShipmentType → QuotationRates → Option ℚ
  | ShipmentType.air, r => r.airLoadingChargeRate
  | ShipmentType.ocean, r => r.oceanLoadingChargeRate
  | ShipmentType.unknown, _ => none

/-- An actual amount is within an optional ceiling: vacuously when the
ceiling is absent, by `≤` when it is present. -/
def withinCeiling (actual : ℚ) (ceiling : Option ℚ) : Prop :=
  ∀ c, ceiling = some c → actual ≤ c

/-- The Boolean match flag agrees with the vacuous-when-absent ceiling
predicate. -/
lemma chargeMatch_iff (a : ℚ) (o : Option ℚ) :
    chargeMatch a o = true ↔ withinCeiling a o := by
  cases o with
  | none => simp [chargeMatch, withinCeiling]
  | some c => simp [chargeMatch, withinCeiling]

/-- Claim C3: `compareCharges` implements the first-match-wins state
machine. For every record whose shipment type is one of the three known
values and every schedule: a null schedule yields `no_quotation_data`; an
unknown shipment type yields `invoice_type_unknown` regardless of the
schedule; when both mode-specific ceilings are absent the result is
`not_comparable_charges`; otherwise the result is `matched` iff the service
actual is within the service ceiling (vacuously when absent) and the
loading actual is within the loading ceiling (likewise), else
`mismatched`. -/
theorem compareCharges_first_match_wins (inv : ExtractedData) (r : QuotationRates)
    (m : ShipmentType) (hm : inv.shipmentType = some m) :
    compareCharges inv none = ComparisonStatus.no_quotation_data
  ∧ (m = ShipmentType.unknown →
      compareCharges inv (some r) = ComparisonStatus.invoice_type_unknown)
  ∧ (m ≠ ShipmentType.unknown → serviceCeiling m r = none → loadingCeiling m r = none →
      compareCharges inv (some r) = ComparisonStatus.not_comparable_charges)
  ∧ (m ≠ ShipmentType.unknown → ¬ (serviceCeiling m r = none ∧ loadingCeiling m r = none) →
      ((compareCharges inv (some r) = ComparisonStatus.matched ↔
          withinCeiling (inv.serviceChargesActual.getD 0) (serviceCeiling m r)
          ∧ withinCeiling (inv.loadingChargesActual.getD 0) (loadingCeiling m r))
        ∧ (compareCharges inv (some r) = ComparisonStatus.matched
            ∨ compareCharges inv (some r) = ComparisonStatus.mismatched))) := by
  refine ⟨rfl, ?_, ?_, ?_⟩
  · intro hunk
    subst hunk
    simp [compareCharges, hm]
  · intro hne hs hl
    cases m with
    | unknown => exact absurd rfl hne
    | air =>
      simp only [serviceCeiling] at hs
      simp only [loadingCeiling] at hl
      simp [compareCharges, hm, hs, hl]
    | ocean =>
      simp only [serviceCeiling] at hs
      simp only [loadingCeiling] at hl
      simp [compareCharges, hm, hs, hl]
  · intro hne hnot
    cases m with
    | unknown => exact absurd rfl hne
    | air =>
      simp only [serviceCeiling, loadingCeiling] at hnot ⊢
      rw [show compareCharges inv (some r) =
          (if r.airServiceChargeRate = none ∧ r.airLoadingChargeRate = none then
            ComparisonStatus.not_comparable_charges
          else if chargeMatch (inv.serviceChargesActual.getD 0) r.airServiceChargeRate
              && chargeMatch (inv.loadingChargesActual.getD 0) r.airLoadingChargeRate then
            ComparisonStatus.matched
          else ComparisonStatus.mismatched) by
        simp [compareCharges, hm]]
      rw [if_neg hnot]
      by_cases hc : chargeMatch (inv.serviceChargesActual.getD 0) r.airServiceChargeRate
          && chargeMatch (inv.loadingChargesActual.getD 0) r.airLoadingChargeRate
      · rw [if_pos hc]
        rw [Bool.and_eq_true] at hc
        exact ⟨⟨fun _ => ⟨(chargeMatch_iff _ _).mp hc.1, (chargeMatch_iff _ _).mp hc.2⟩,
          fun _ => rfl⟩, Or.inl rfl⟩
      · rw [if_neg hc]
        refine ⟨⟨fun habs => absurd habs (by simp), fun hw => ?_⟩, Or.inr rfl⟩
        exact absurd (by
          rw [Bool.and_eq_true]
          exact ⟨(chargeMatch_iff _ _).mpr hw.1, (chargeMatch_iff _ _).mpr hw.2⟩) hc
    | ocean =>
      simp only [serviceCeiling, loadingCeiling] at hnot ⊢
      rw [show compareCharges inv (some r) =
          (if r.oceanServiceChargeRate = none ∧ r.oceanLoadingChargeRate = none then
            ComparisonStatus.not_comparable_charges
          else if chargeMatch (inv.serviceChargesActual.getD 0) r.oceanServiceChargeRate
              && chargeMatch (inv.loadingChargesActual.getD 0) r.oceanLoadingChargeRate then
            ComparisonStatus.matched
          else ComparisonStatus.mismatched) by
        simp [compareCharges, hm]]
      rw [if_neg hnot]
      by_cases hc : chargeMatch (inv.serviceChargesActual.getD 0) r.oceanServiceChargeRate
          && chargeMatch (inv.loadingChargesActual.getD 0) r.oceanLoadingChargeRate
      · rw [if_pos hc]
        rw [Bool.and_eq_true] at hc
        exact ⟨⟨fun _ => ⟨(chargeMatch_iff _ _).mp hc.1, (chargeMatch_iff _ _).mp hc.2⟩,
          fun _ => rfl⟩, Or.inl rfl⟩
      · rw [if_neg hc]
        refine ⟨⟨fun habs => absurd habs (by simp), fun hw => ?_⟩, Or.inr rfl⟩
        exact absurd (by
          rw [Bool.and_eq_true]
          exact ⟨(chargeMatch_iff _ _).mpr hw.1, (chargeMatch_iff _ _).mpr hw.2⟩) hc

/-- A concrete air-mode record with service actual 4000 and loading actual
99999, for exercising the comparator theorems. -/
def invAirExample : ExtractedData :=
  { invoiceDate := "2025-04-29", invoiceNumber := "INV1", hawbNumber := "H1"
    termsOfInvoice := "CIF", jobNumber := "IMP/AIR/1"
    cargomenOwnCharges := 0, reimbursementCharges := 0
    filename := some "a.pdf"
    serviceChargesActual := some 4000, loadingChargesActual := some 99999
    transportationChargesActual := some 5
    shipmentType := some ShipmentType.air, comparisonStatus := none }

/-- A concrete schedule with an air service ceiling of 4000 and no air
loading ceiling. -/
def ratesAirExample : QuotationRates :=
  { airServiceChargeRate := some 4000, airServiceChargeDescription := some "fixed"
    airLoadingChargeRate := none, airLoadingChargeDescription := some "at actual"
    airTransportationChargeRate := none, airTransportationChargeDescription := none
    oceanServiceChargeRate := none, oceanServiceChargeDescription := none
    oceanLoadingChargeRate := none, oceanLoadingChargeDescription := none
    oceanTransportationChargeRate := none, oceanTransportationChargeDescription := none }

/-- Witness for claim C3 at a concrete input: with an air service ceiling
of 4000 and an absent loading ceiling, a record with service actual 4000
and loading actual 99999 is `matched` (the loading check passes
vacuously). -/
theorem compareCharges_first_match_wins_witness :
    compareCharges invAirExample (some ratesAirExample) = ComparisonStatus.matched := by
  have h := (compareCharges_first_match_wins invAirExample ratesAirExample
    ShipmentType.air rfl).2.2.2 (by decide) (by simp [serviceCeiling, ratesAirExample])
  refine h.1.mpr ⟨?_, ?_⟩
  · intro c hc
    rw [show serviceCeiling ShipmentType.air ratesAirExample = some 4000 from rfl,
      Option.some_inj] at hc
    rw [show (invAirExample.serviceChargesActual.getD 0) = 4000 from rfl, ← hc]
  · intro c hc
    rw [show loadingCeiling ShipmentType.air ratesAirExample = none from rfl] at hc
    exact absurd hc (by simp)

/-- Claim C9: the verdict of `compareCharges` is independent of the
record's `transportationChargesActual` and of the schedule's transportation
rate fields. Two runs whose inputs agree except in those fields produce the
same verdict. -/
theorem compareCharges_transport_independent
    (inv₁ inv₂ : ExtractedData) (r₁ r₂ : QuotationRates)
    (hinv : inv₂ = { inv₁ with
        transportationChargesActual := inv₂.transportationChargesActual })
    (hr : r₂ = { r₁ with
        airTransportationChargeRate := r₂.airTransportationChargeRate
        airTransportationChargeDescription := r₂.airTransportationChargeDescription
        oceanTransportationChargeRate := r₂.oceanTransportationChargeRate
        oceanTransportationChargeDescription := r₂.oceanTransportationChargeDescription }) :
    compareCharges inv₁ (some r₁) = compareCharges inv₂ (some r₂) := by
  rw [hinv, hr]
  rfl

/-- Witness for claim C9 at concrete inputs: changing the transportation
actual from 5 to 77777 and adding transportation rates to the schedule does
not change the verdict. -/
theorem compareCharges_transport_independent_witness :
    compareCharges invAirExample (some ratesAirExample) =
      compareCharges
        { invAirExample with transportationChargesActual := some 77777 }
        (some { ratesAirExample with
            airTransportationChargeRate := some 1
            airTransportationChargeDescription := some "per km"
            oceanTransportationChargeRate := some 2
            oceanTransportationChargeDescription := some "per ton" }) :=
  compareCharges_transport_independent _ _ _ _ rfl rfl

/-- The deduplication key is reflexive: every record collides with
itself. -/
lemma sameKey_self (a : ExtractedData) : sameKey a a = true := by
  simp [sameKey]

/-- Adding a batch in which every record collides with the stored list
leaves the store unchanged; in particular a single colliding record is a
no-op. -/
lemma addInvoiceData_collision (prev : List ExtractedData) (r : ExtractedData)
    (h : prev.any (fun e => sameKey e r) = true) :
    addInvoiceData prev [r] = prev := by
  simp [addInvoiceData, h]

/-- Adding a single non-colliding record appends it. -/
lemma addInvoiceData_fresh (prev : List ExtractedData) (r : ExtractedData)
    (h : prev.any (fun e => sameKey e r) = false) :
    addInvoiceData prev [r] = prev ++ [r] := by
  simp [addInvoiceData, h]

/-- Claim C8: adding a record whose (invoiceNumber, filename) pair already
occurs in the store leaves the store unchanged; consequently two successive
adds of the same record are idempotent, and starting from a store without
the key, adding the record twice leaves exactly one record with that
key. -/
theorem addInvoiceData_dedup_idempotent (prev : List ExtractedData)
    (r : ExtractedData) (h : prev.any (fun e => sameKey e r) = true) :
    addInvoiceData prev [r] = prev
  ∧ (∀ p : List ExtractedData,
      addInvoiceData (addInvoiceData p [r]) [r] = addInvoiceData p [r])
  ∧ (∀ p : List ExtractedData, p.any (fun e => sameKey e r) = false →
      (addInvoiceData (addInvoiceData p [r]) [r]).countP (fun e => sameKey e r) = 1) := by
  refine ⟨addInvoiceData_collision prev r h, fun p => ?_, fun p hp => ?_⟩
  · cases hp : p.any (fun e => sameKey e r) with
    | true =>
      rw [addInvoiceData_collision p r hp, addInvoiceData_collision p r hp]
    | false =>
      rw [addInvoiceData_fresh p r hp]
      exact addInvoiceData_collision _ r (by simp [sameKey_self])
  · rw [addInvoiceData_fresh p r hp,
      addInvoiceData_collision _ r (by simp [sameKey_self]),
      List.countP_append]
    have hzero : p.countP (fun e => sameKey e r) = 0 := by
      rw [List.countP_eq_zero]
      intro a ha hc
      have hany : p.any (fun e => sameKey e r) = true :=
        List.any_eq_true.mpr ⟨a, ha, hc⟩
      rw [hp] at hany
      exact Bool.false_ne_true hany
    rw [hzero]
    simp [sameKey_self]

/-- Witness for claim C8 at a concrete input: the store `[invAirExample]`
already holds the key of `invAirExample`, so re-adding it is a no-op and
double-adding from the empty store keeps exactly one copy. -/
theorem addInvoiceData_dedup_idempotent_witness :
    addInvoiceData [invAirExample] [invAirExample] = [invAirExample]
    ∧ (addInvoiceData (addInvoiceData [] [invAirExample]) [invAirExample]).countP
        (fun e => sameKey e invAirExample) = 1 := by
  have h := addInvoiceData_dedup_idempotent [invAirExample] invAirExample
    (by simp [sameKey_self])
  exact ⟨h.1, h.2.2 [] rfl⟩

/-- Claim C10: de-duplication filters the incoming batch only against the
previously stored list, never against other records of the same call — two
records of one call that share a key are both appended when neither
collides with the store. -/
theorem addInvoiceData_intra_batch_duplicates (prev : List ExtractedData)
    (r₁ r₂ : ExtractedData)
    (hkey : r₁.invoiceNumber = r₂.invoiceNumber ∧ r₁.filename = r₂.filename)
    (h1 : prev.any (fun e => sameKey e r₁) = false) :
    addInvoiceData prev [r₁, r₂] = prev ++ [r₁, r₂] := by
  have hfun : (fun e => sameKey e r₂) = (fun e => sameKey e r₁) := by
    funext e
    simp [sameKey, hkey.1, hkey.2]
  have h2 : prev.any (fun e => sameKey e r₂) = false := by rw [hfun]; exact h1
  simp [addInvoiceData, h1, h2]

/-- Witness for claim C10 at a concrete input: two key-equal records in a
single call are both appended to the empty store. -/
theorem addInvoiceData_intra_batch_duplicates_witness :
    addInvoiceData []
        [invAirExample, { invAirExample with cargomenOwnCharges := 9 }]
      = [invAirExample, { invAirExample with cargomenOwnCharges := 9 }] :=
  addInvoiceData_intra_batch_duplicates []
    invAirExample { invAirExample with cargomenOwnCharges := 9 } ⟨rfl, rfl⟩ rfl

/-- Characterisation of the batch loop over a run of successful files, from
an arbitrary accumulator: every record is collected, no failure is
recorded, and the counter advances once per file. -/
lemma foldl_processFile_all_ok (l : List (String × ExtractedData))
    (acc : BatchResult) :
    (l.map (fun p => (p.1, (Except.ok p.2 : Except String ExtractedData)))).foldl
        processFile acc
      = { succeededData := acc.succeededData ++ l.map Prod.snd
          failedFiles := acc.failedFiles
          processedFiles := acc.processedFiles + l.length } := by
  induction l generalizing acc with
  | nil => simp
  | cons a t ih =>
    rw [List.map_cons, List.foldl_cons, ih]
    simp [processFile, List.append_assoc]
    omega

/-- Claim C4: per-document failure isolation of the batch loop of
`handleUpload`. For every store and every batch consisting of successful
documents with a single failing document anywhere between them: every
remaining document is still processed (the counter covers the whole batch),
the loop collects exactly the successful records, the single failure is
reported by its filename, and the store update adds exactly the successful
records. The batch operation itself never throws: `handleUpload` is a total
function — the source catches every per-file exception inside the loop. -/
theorem handleUpload_failure_isolated (prev : List ExtractedData)
    (pre post : List (String × ExtractedData)) (name err : String) :
    (handleUploadLoop
        (pre.map (fun p => (p.1, (Except.ok p.2 : Except String ExtractedData)))
          ++ (name, (Except.error err : Except String ExtractedData))
            :: post.map (fun p => (p.1, (Except.ok p.2 : Except String ExtractedData))))).succeededData
      = pre.map Prod.snd ++ post.map Prod.snd
  ∧ (handleUploadLoop
        (pre.map (fun p => (p.1, (Except.ok p.2 : Except String ExtractedData)))
          ++ (name, (Except.error err : Except String ExtractedData))
            :: post.map (fun p => (p.1, (Except.ok p.2 : Except String ExtractedData))))).failedFiles
      = [name]
  ∧ (handleUploadLoop
        (pre.map (fun p => (p.1, (Except.ok p.2 : Except String ExtractedData)))
          ++ (name, (Except.error err : Except String ExtractedData))
            :: post.map (fun p => (p.1, (Except.ok p.2 : Except String ExtractedData))))).processedFiles
      = pre.length + 1 + post.length
  ∧ handleUpload prev
        (pre.map (fun p => (p.1, (Except.ok p.2 : Except String ExtractedData)))
          ++ (name, (Except.error err : Except String ExtractedData))
            :: post.map (fun p => (p.1, (Except.ok p.2 : Except String ExtractedData))))
      = addInvoiceData prev (pre.map Prod.snd ++ post.map Prod.snd) := by
  have key :
      handleUploadLoop
        (pre.map (fun p => (p.1, (Except.ok p.2 : Except String ExtractedData)))
          ++ (name, (Except.error err : Except String ExtractedData))
            :: post.map (fun p => (p.1, (Except.ok p.2 : Except String ExtractedData))))
      = { succeededData := pre.map Prod.snd ++ post.map Prod.snd
          failedFiles := [name]
          processedFiles := pre.length + 1 + post.length } := by
    rw [handleUploadLoop, List.foldl_append, foldl_processFile_all_ok, List.foldl_cons]
    show List.foldl processFile
      (processFile { succeededData := [] ++ pre.map Prod.snd, failedFiles := []
                     processedFiles := 0 + pre.length } (name, Except.error err)) _ = _
    rw [show processFile
        { succeededData := [] ++ pre.map Prod.snd, failedFiles := []
          processedFiles := 0 + pre.length } (name, Except.error err)
      = { succeededData := [] ++ pre.map Prod.snd, failedFiles := [] ++ [name]
          processedFiles := 0 + pre.length + 1 } from rfl]
    rw [foldl_processFile_all_ok]
    simp
  refine ⟨by rw [key], by rw [key], by rw [key], ?_⟩
  rw [handleUpload, key]
  show (if (pre.map Prod.snd ++ post.map Prod.snd).isEmpty then prev
    else addInvoiceData prev (pre.map Prod.snd ++ post.map Prod.snd)) = _
  cases hpre : pre with
  | cons a l => simp [addInvoiceData]
  | nil =>
    cases hpost : post with
    | cons b l2 => simp [addInvoiceData]
    | nil => simp [addInvoiceData]

/-- Claim C5: when the document-understanding call of the charge classifier
returns no structured output, `classifyInvoiceChargesFlow` returns the
breakdown in which every charge field equals 0 — and it does not throw (the
embedding is a plain function, matching the source's early `return` of the
zero object). -/
theorem classifyFlow_defaults_on_no_output :
    (classifyInvoiceChargesFlow none).serviceCharges = 0
  ∧ (classifyInvoiceChargesFlow none).loadingUnloadingCharges = 0
  ∧ (classifyInvoiceChargesFlow none).transportationCharges = 0
  ∧ (classifyInvoiceChargesFlow none).reimbursementCharges = 0 :=
  ⟨rfl, rfl, rfl, rfl⟩

/-- Claim C6: when the identification-field prompt returns no structured
output, `extractInvoiceDataFlow` throws for that document (embedded as
`Except.error` with the source's message) no matter what the charge
classifier returned — no record with defaulted identification fields is
produced — while absence of classifier output alone never fails the
document: with basic details present and no classifier output the flow
still succeeds. -/
theorem extractFlow_fatal_without_details :
    (∀ c : Option RawClassifierOutput,
      extractInvoiceDataFlow none c =
        Except.error
          "Failed to extract basic details from the first page of the invoice document.")
  ∧ (∀ bd : BasicDetails,
      ∃ out, extractInvoiceDataFlow (some bd) none = Except.ok out) :=
  ⟨fun _ => rfl, fun _ => ⟨_, rfl⟩⟩

/-- Claim C1: in the final pipeline, whenever the post-coercion sum of the
three actual-by-type components is positive, the merged output record's
`cargomenOwnCharges` equals that sum — whatever aggregate the model
reported in `cargomenOwnCharges` (the field is arbitrary in `raw`). -/
theorem extractFlow_ownCharges_reconciled (bd : BasicDetailsWithType)
    (raw : RawActualClassifierOutput)
    (hpos : 0 < parseChargeValue raw.serviceChargesActual
        + parseChargeValue raw.loadingChargesActual
        + parseChargeValue raw.transportationChargesActual) :
    ∃ rec, extractInvoiceDataFlowFinal (some bd) (some raw) = Except.ok rec
      ∧ rec.cargomenOwnCharges
          = parseChargeValue raw.serviceChargesActual
            + parseChargeValue raw.loadingChargesActual
            + parseChargeValue raw.transportationChargesActual := by
  refine ⟨_, rfl, ?_⟩
  show (if 0 < parseChargeValue raw.serviceChargesActual
        + parseChargeValue raw.loadingChargesActual
        + parseChargeValue raw.transportationChargesActual then
      parseChargeValue raw.serviceChargesActual
        + parseChargeValue raw.loadingChargesActual
        + parseChargeValue raw.transportationChargesActual
    else parseChargeValue raw.cargomenOwnCharges)
      = parseChargeValue raw.serviceChargesActual
        + parseChargeValue raw.loadingChargesActual
        + parseChargeValue raw.transportationChargesActual
  rw [if_pos hpos]

/-- Witness for claim C1 at the spec's concrete reconciliation example:
actuals {service 100, loading 50, transportation 200} with a model-reported
aggregate of 0 yield an output `cargomenOwnCharges` of 350. -/
theorem extractFlow_ownCharges_reconciled_witness :
    ∃ rec,
      extractInvoiceDataFlowFinal
          (some { invoiceNumber := "INV1", invoiceDate := "2025-04-29"
                  hawbNumber := "H1", termsOfInvoice := "CIF"
                  jobNumber := "IMP/AIR/1", shipmentType := ShipmentType.air })
          (some { serviceChargesActual := JSValue.num (JSNum.val 100)
                  loadingChargesActual := JSValue.num (JSNum.val 50)
                  transportationChargesActual := JSValue.num (JSNum.val 200)
                  cargomenOwnCharges := JSValue.num (JSNum.val 0)
                  reimbursementCharges := JSValue.num (JSNum.val 0) })
        = Except.ok rec
      ∧ rec.cargomenOwnCharges = 350 := by
  obtain ⟨rec, h1, h2⟩ := extractFlow_ownCharges_reconciled
    { invoiceNumber := "INV1", invoiceDate := "2025-04-29"
      hawbNumber := "H1", termsOfInvoice := "CIF"
      jobNumber := "IMP/AIR/1", shipmentType := ShipmentType.air }
    { serviceChargesActual := JSValue.num (JSNum.val 100)
      loadingChargesActual := JSValue.num (JSNum.val 50)
      transportationChargesActual := JSValue.num (JSNum.val 200)
      cargomenOwnCharges := JSValue.num (JSNum.val 0)
      reimbursementCharges := JSValue.num (JSNum.val 0) }
    (by norm_num [parseChargeValue])
  refine ⟨rec, h1, ?_⟩
  rw [h2]
  norm_num [parseChargeValue]

end InvoiceInsights
